import Mathlib

/-!
Shallow embedding of `src/fixed_rust_trader.rs` (a new-pool sniping bot).

Addresses, topics and hashes travel through the Rust code as lowercase hex
strings (`format!("{:?}", addr)`, `hex::encode`, `.to_lowercase()`), so we
model addresses as `String` and 32-byte topic words / hashes as `List Nat`
of byte values, with an explicit lowercase hex encoder mirroring
`hex::encode` and the `Debug` rendering of `H160`/`H256`.

Effectful collaborators (the RPC provider, token-metadata calls, the gas
oracle) are passed in as explicit arguments: a fetch that can fail is an
`Option` result, matching the `Result`-returning provider calls in the
source.  `Instant`-based latency fields are omitted (real time).
-/

/-- `WETH_ADDRESS` constant (line 11 of the source). -/
def WETH_ADDRESS : String := "0x4200000000000000000000000000000000000006"

/-- `KNOWN_TOKENS` constant (lines 15-23): addresses to exclude. -/
def KNOWN_TOKENS : List String :=
  [ "0x833589fcd6edb6e08f4c7c32d4f71b54bda02913"  -- USDC
  , "0x4200000000000000000000000000000000000006"  -- WETH
  , "0x50c5725949a6f0c72e6c4a641f24049a917db0cb"  -- DAI
  , "0xd9aaec86b65d86f6a7b5b1b0c42ffa531710b6ca"  -- USDbC
  , "0x2ae3f1ec7f1f5012cfeab0185bfc7aa3cf0dec22"  -- cbETH
  , "0x0b3e328455c4059eeb9e3f84b5543f74e24e7e1b"  -- cbBTC
  , "0x940181a94a35a4569e4529a3cdfb74e38fd98631"  -- AERO
  ]

/-- `PAIR_CREATED_SIG` constant (line 26): V2-style PairCreated topic. -/
def PAIR_CREATED_SIG : String :=
  "0x0d3648bd0f6ba80134a33ba9275ac585d9d315f0ad8355cddefde31afa28d0e9"

/-- `POOL_CREATED_V3_SIG` constant (line 27): V3-style PoolCreated topic. -/
def POOL_CREATED_V3_SIG : String :=
  "0x783cca1c0412dd0d695e784568c96da2e9c22ff989357a2e8b1d9b2b4e6b7118"

/-- `UNISWAP_V2_ROUTER` constant (line 30). -/
def UNISWAP_V2_ROUTER : String := "0x4752ba5dbc23f44d87826276bf6fd6b1c372ad24"

/-- ASCII lowercase of one character, as Rust's `str::to_lowercase` acts on
the ASCII addresses and hashes this program handles. -/
def charToLower (c : Char) : Char :=
  if 65 ≤ c.toNat ∧ c.toNat ≤ 90 then Char.ofNat (c.toNat + 32) else c

/-- `.to_lowercase()` on the ASCII strings of this program. -/
def strToLower (s : String) : String := String.mk (s.data.map charToLower)

/-- One lowercase hex digit, as produced by `hex::encode`. -/
def hexDigit (n : Nat) : Char :=
  if n < 10 then Char.ofNat (48 + n) else Char.ofNat (87 + n)

/-- Two lowercase hex digits of one byte. -/
def byteHex (b : Nat) : String :=
  String.mk [hexDigit (b / 16 % 16), hexDigit (b % 16)]

/-- `format!("0x{}", hex::encode(bytes))`, also the `Debug` rendering of
`H160`/`H256`: `0x` followed by lowercase hex of the bytes. -/
def hexEncode (bs : List Nat) : String :=
  "0x" ++ String.join (bs.map byteHex)

/-- An EVM log entry as consumed by `analyze_pool_creation`: the emitting
contract address (already in its `Debug` string rendering), the topic words
(32 bytes each), and the optional transaction hash (32 bytes). -/
structure Log where
  address : String
  topics : List (List Nat)
  transaction_hash : Option (List Nat)
deriving Repr, DecidableEq

/-- `RealNewPool` struct (lines 32-39).  The `detection_time : Instant`
field is omitted: it is wall-clock data used only for latency printing. -/
structure RealNewPool where
  new_token_address : String
  pair_address : String
  block_number : Nat
  tx_hash : String
deriving Repr, DecidableEq

/-- The mutable state of `FixedNewPoolTrader` (lines 41-47): the exclusion
set, the processed-pool dedup set (both `HashSet<String>`, modelled as
lists with `contains` membership) and the scan cursor `last_block`.
The provider and wallet handles carry no state we reason about. -/
structure TraderState where
  known_tokens : List String
  processed_pools : List String
  last_block : Nat
deriving Repr, DecidableEq

/-- An ethers `Filter` as built in `find_real_new_pools` (lines 88-91):
block range plus the accepted `topic0` event-signature values. -/
structure LogFilter where
  from_block : Nat
  to_block : Nat
  topic0 : List String
deriving Repr, DecidableEq

/-- The swap transaction assembled in `execute_real_purchase`
(lines 184-217): path, floor output, deadline, gas settings, value. -/
structure SwapTx where
  path : List String
  min_out : Nat
  deadline : Nat
  gas_price : Nat
  gas_limit : Nat
  value : Nat
deriving Repr, DecidableEq

/-- Address recovered from a 32-byte topic word (lines 114-118): drop the
12 padding bytes, hex encode, lowercase. -/
def topicAddress (word : List Nat) : String :=
  strToLower (hexEncode (word.drop 12))

/-- `token0` of a pool-creation log: `log.topics[1]` (line 114). -/
def logTokenA (log : Log) : String :=
  topicAddress (log.topics.getD 1 [])

/-- `token1` of a pool-creation log: `log.topics[2]` (line 115). -/
def logTokenB (log : Log) : String :=
  topicAddress (log.topics.getD 2 [])

/-- The if/else chain of lines 124-131: token0 wins if it is neither a
known token nor WETH, else token1 under the same test, else no new token. -/
def select_new_token (known : List String) (token0 token1 : String) : Option String :=
  if !known.contains token0 && token0 != (strToLower WETH_ADDRESS) then some token0
  else if !known.contains token1 && token1 != (strToLower WETH_ADDRESS) then some token1
  else none

/-- Spec-side notion: an address is excluded when it is in the configured
exclusion set or is the wrapped-native (WETH) address. -/
def excluded (known : List String) (t : String) : Bool :=
  known.contains t || t == (strToLower WETH_ADDRESS)

/-- `analyze_pool_creation` (lines 109-154): needs at least 3 topics,
selects the new token, then rejects already-processed pair addresses;
the tx hash defaults to the zero hash when absent (line 142). -/
def analyze_pool_creation (st : TraderState) (log : Log) (block_number : Nat) :
    Option RealNewPool :=
  if 3 ≤ log.topics.length then
    match select_new_token st.known_tokens (logTokenA log) (logTokenB log) with
    | none => none
    | some new_token =>
      if st.processed_pools.contains (strToLower log.address) then none
      else some
        { new_token_address := new_token
        , pair_address := strToLower log.address
        , block_number := block_number
        , tx_hash := hexEncode (log.transaction_hash.getD (List.replicate 32 0)) }
  else none

/-- The filter built in `find_real_new_pools` (lines 88-91): single-block
range, `topic0` set to the single `PAIR_CREATED_SIG` value. -/
def pair_created_filter (block_number : Nat) : LogFilter :=
  { from_block := block_number
  , to_block := block_number
  , topic0 := [PAIR_CREATED_SIG] }

/-- The `for log in logs` loop of lines 96-100: classify each log,
keep the events. -/
def analyze_logs (st : TraderState) (logs : List Log) (bn : Nat) : List RealNewPool :=
  logs.filterMap (fun l => analyze_pool_creation st l bn)

/-- `find_real_new_pools` (lines 81-107): query the provider with the
single-block filter; on `Ok logs` classify them, on `Err` (the `if let Ok`
falls through) return the empty list. -/
def find_real_new_pools (st : TraderState) (getLogs : LogFilter → Option (List Log))
    (bn : Nat) : List RealNewPool :=
  match getLogs (pair_created_filter bn) with
  | some logs => analyze_logs st logs bn
  | none => []

/-- The swap built in lines 184-217: 0.001 ETH in, 2-hop path
[WETH, new token], floor of 1 unit out, deadline now+300s, gas price
4x the base price (U256 arithmetic, hence mod 2^256), 500k gas limit. -/
def build_swap (pool : RealNewPool) (now : Nat) (base_gas : Nat) : SwapTx :=
  { path := [WETH_ADDRESS, pool.new_token_address]
  , min_out := 1
  , deadline := now + 300
  , gas_price := base_gas * 4 % 2 ^ 256
  , gas_limit := 500000
  , value := 1000000000000000 }

/-- `execute_real_purchase` (lines 156-260) as a state transition.  The
pair address is inserted into `processed_pools` first (line 167),
unconditionally.  `validate` abstracts the `Address::from_str` parse plus
the `validate_token` metadata call (lines 170-180): `none` means the event
is dropped with no swap.  `gasPrice?` abstracts `get_gas_price` (line 189):
`none` means the fetch errored before a swap could be built.  Broadcasting
and confirmation do not touch the trader state. -/
def execute_real_purchase (st : TraderState) (pool : RealNewPool)
    (validate : String → Option (String × String)) (now : Nat)
    (gasPrice? : Option Nat) : TraderState × Option SwapTx :=
  ({ st with processed_pools := pool.pair_address :: st.processed_pools },
   match validate pool.new_token_address, gasPrice? with
   | some _, some base_gas => some (build_swap pool now base_gas)
   | _, _ => none)

/-- One block's worth of the driver body (lines 307-315): scan the block,
then run `execute_real_purchase` for each discovered pool in order.
Returns the new state and the list of pools that were dispatched. -/
def scan_and_execute (st : TraderState) (getLogs : LogFilter → Option (List Log))
    (bn : Nat) (validate : String → Option (String × String)) (now : Nat)
    (gasPrice? : Option Nat) : TraderState × List RealNewPool :=
  let pools := find_real_new_pools st getLogs bn
  (pools.foldl (fun s p => (execute_real_purchase s p validate now gasPrice?).1) st,
   pools)

/-- One iteration of the `loop` in `run_fixed_detection` (lines 300-321).
`height?` is the `get_block_number` result: `none` (transport error)
propagates out of the loop via `?` — modelled as `none`.  Otherwise every
block in `(last_block+1)..=current` is scanned and executed, and
`last_block` is then set to `current` unconditionally. -/
def run_tick (st : TraderState) (height? : Option Nat)
    (getLogs : LogFilter → Option (List Log))
    (validate : String → Option (String × String)) (now : Nat)
    (gasPrice? : Option Nat) : Option TraderState :=
  match height? with
  | none => none
  | some current =>
    if st.last_block < current then
      let st' := (List.range' (st.last_block + 1) (current - st.last_block)).foldl
        (fun s bn => (scan_and_execute s getLogs bn validate now gasPrice?).1) st
      some { st' with last_block := current }
    else
      some st

/-! ### Concrete fixtures used by the witness theorems -/

/-- 20 bytes `0xab`: a fresh token address appearing in no exclusion list. -/
def tokenNewBytes : List Nat := List.replicate 20 171

/-- The 20 bytes of the WETH address `0x4200...0006`. -/
def wethBytes : List Nat := 66 :: List.replicate 18 0 ++ [6]

/-- An arbitrary 32-byte event-signature topic word. -/
def sigWord : List Nat := List.replicate 32 13

/-- The 12 zero padding bytes preceding an address in a topic word. -/
def pad12 : List Nat := List.replicate 12 0

/-- A pool-creation log pairing a fresh token with WETH, with no
transaction hash. -/
def logEx : Log :=
  { address := "0x1111111111111111111111111111111111111111"
  , topics := [sigWord, pad12 ++ tokenNewBytes, pad12 ++ wethBytes]
  , transaction_hash := none }

/-- Trader state as produced by `FixedNewPoolTrader::new` (lines 57-77):
lowercased known-token set, empty processed set, cursor at block 100. -/
def stEx : TraderState :=
  { known_tokens := KNOWN_TOKENS.map strToLower
  , processed_pools := []
  , last_block := 100 }

/-- `stEx` after the pair address of `logEx` has been marked processed. -/
def stProc : TraderState :=
  { stEx with processed_pools := ["0x1111111111111111111111111111111111111111"] }

/-- The event `analyze_pool_creation` extracts from `logEx`. -/
def eEx : RealNewPool :=
  { new_token_address := "0xabababababababababababababababababababab"
  , pair_address := "0x1111111111111111111111111111111111111111"
  , block_number := 101
  , tx_hash := "0x0000000000000000000000000000000000000000000000000000000000000000" }

/-- A provider whose log query always returns the single log `logEx`. -/
def gOne : LogFilter → Option (List Log) := fun _ => some [logEx]

/-- A provider whose log query always fails with a transport error. -/
def getLogsFail : LogFilter → Option (List Log) := fun _ => none

/-- A token-metadata oracle for which validation always fails. -/
def validateNone : String → Option (String × String) := fun _ => none

/-- A token-metadata oracle for which validation always succeeds. -/
def validateOk : String → Option (String × String) := fun _ => some ("TOK", "Token")

/-! ### Helper lemmas -/

/-- The boolean guard of lines 124/126 is the negation of `excluded`. -/
theorem select_new_token_eq (known : List String) (t0 t1 : String) :
    select_new_token known t0 t1 =
      if !excluded known t0 then some t0
      else if !excluded known t1 then some t1
      else none := by
  simp [select_new_token, excluded, Bool.not_or]

/-- A selected token is neither a known token nor WETH. -/
theorem select_new_token_some (known : List String) (t0 t1 tok : String)
    (h : select_new_token known t0 t1 = some tok) :
    known.contains tok = false ∧ tok ≠ strToLower WETH_ADDRESS := by
  unfold select_new_token at h
  split at h
  next hc =>
    cases h
    simp only [Bool.and_eq_true, Bool.not_eq_true', bne_iff_ne, ne_eq] at hc
    exact ⟨hc.1, hc.2⟩
  next =>
    split at h
    next hc2 =>
      cases h
      simp only [Bool.and_eq_true, Bool.not_eq_true', bne_iff_ne, ne_eq] at hc2
      exact ⟨hc2.1, hc2.2⟩
    next => cases h

/-- Anatomy of a successful classification. -/
theorem analyze_some_elim {st : TraderState} {log : Log} {bn : Nat}
    {e : RealNewPool} (h : analyze_pool_creation st log bn = some e) :
    select_new_token st.known_tokens (logTokenA log) (logTokenB log)
        = some e.new_token_address
    ∧ e.pair_address = strToLower log.address
    ∧ st.processed_pools.contains (strToLower log.address) = false
    ∧ e.block_number = bn
    ∧ e.tx_hash = hexEncode (log.transaction_hash.getD (List.replicate 32 0))
    ∧ 3 ≤ log.topics.length := by
  unfold analyze_pool_creation at h
  split at h
  next h3 =>
    split at h
    next => cases h
    next tok hsel =>
      split at h
      next => cases h
      next hc =>
        cases h
        exact ⟨hsel, rfl, by simpa using hc, rfl, rfl, h3⟩
  next => cases h

/-- Classification rejects a log whose emitting address is already in the
processed-pool set. -/
theorem analyze_rejects_processed (st : TraderState) (log : Log) (bn : Nat)
    (h : st.processed_pools.contains (strToLower log.address) = true) :
    analyze_pool_creation st log bn = none := by
  unfold analyze_pool_creation
  by_cases h3 : 3 ≤ log.topics.length
  · rw [if_pos h3]
    cases hsel : select_new_token st.known_tokens (logTokenA log) (logTokenB log) with
    | none => rfl
    | some tok =>
      have hx : strToLower log.address ∈ st.processed_pools := by simpa using h
      simp [hx]
  · rw [if_neg h3]

/-- Rejection is stable under growing the processed set (same exclusions). -/
theorem analyze_mono (st st' : TraderState) (log : Log) (bn : Nat)
    (hk : st'.known_tokens = st.known_tokens)
    (hp : ∀ x, st.processed_pools.contains x = true →
      st'.processed_pools.contains x = true)
    (h : analyze_pool_creation st log bn = none) :
    analyze_pool_creation st' log bn = none := by
  unfold analyze_pool_creation at h ⊢
  rw [hk]
  by_cases h3 : 3 ≤ log.topics.length
  · rw [if_pos h3] at h ⊢
    cases hsel : select_new_token st.known_tokens (logTokenA log) (logTokenB log) with
    | none => rfl
    | some tok =>
      by_cases hc : st.processed_pools.contains (strToLower log.address) = true
      · have hx : strToLower log.address ∈ st'.processed_pools := by
          simpa using hp _ hc
        simp [hx]
      · rw [hsel] at h
        simp [hc] at h
        exact absurd h (by simpa using hc)
  · rw [if_neg h3] at h ⊢

/-- `execute_real_purchase` updates the state by prepending the pair
address to the processed set, whatever the validation outcome. -/
theorem execute_real_purchase_fst (st : TraderState) (p : RealNewPool)
    (v : String → Option (String × String)) (now : Nat) (gp : Option Nat) :
    (execute_real_purchase st p v now gp).1 =
      { st with processed_pools := p.pair_address :: st.processed_pools } := rfl

/-- Executing a batch of pools leaves the exclusion set unchanged. -/
theorem foldl_exec_known (ps : List RealNewPool) (st : TraderState)
    (v : String → Option (String × String)) (now : Nat) (gp : Option Nat) :
    (ps.foldl (fun s p => (execute_real_purchase s p v now gp).1) st).known_tokens
      = st.known_tokens := by
  induction ps generalizing st with
  | nil => rfl
  | cons p ps ih =>
    rw [List.foldl_cons, ih]
    rfl

/-- Executing a batch of pools only grows the processed set. -/
theorem foldl_exec_contains_mono (ps : List RealNewPool) (st : TraderState)
    (v : String → Option (String × String)) (now : Nat) (gp : Option Nat)
    (x : String) (h : st.processed_pools.contains x = true) :
    ((ps.foldl (fun s p => (execute_real_purchase s p v now gp).1)
      st).processed_pools).contains x = true := by
  induction ps generalizing st with
  | nil => exact h
  | cons p ps ih =>
    rw [List.foldl_cons]
    refine ih _ ?_
    have hx : x ∈ st.processed_pools := by simpa using h
    simp [execute_real_purchase, hx]

/-- After executing a batch of pools, every pool of the batch is marked
processed. -/
theorem foldl_exec_contains_self (ps : List RealNewPool) (st : TraderState)
    (v : String → Option (String × String)) (now : Nat) (gp : Option Nat)
    (p : RealNewPool) (h : p ∈ ps) :
    ((ps.foldl (fun s p => (execute_real_purchase s p v now gp).1)
      st).processed_pools).contains p.pair_address = true := by
  induction ps generalizing st with
  | nil => cases h
  | cons q qs ih =>
    rw [List.foldl_cons]
    rcases List.mem_cons.mp h with rfl | hmem
    · exact foldl_exec_contains_mono qs _ v now gp _
        (by simp [execute_real_purchase, List.contains_cons])
    · exact ih _ hmem

/-! ### Claim theorems -/

/-- C3: for every log with at least 3 topics and a pair address not yet
processed, classification selects the new token by the fixed rule: token A
(first address topic) if it is not excluded — the tie-break when neither
token is excluded; otherwise token B if it is not excluded; otherwise the
log is rejected and no event is returned. -/
theorem C3_fixed_selection_rule (st : TraderState) (log : Log) (bn : Nat)
    (h3 : 3 ≤ log.topics.length)
    (hp : st.processed_pools.contains (strToLower log.address) = false) :
    (excluded st.known_tokens (logTokenA log) = false →
      (analyze_pool_creation st log bn).map RealNewPool.new_token_address
        = some (logTokenA log))
    ∧ (excluded st.known_tokens (logTokenA log) = true →
        excluded st.known_tokens (logTokenB log) = false →
        (analyze_pool_creation st log bn).map RealNewPool.new_token_address
          = some (logTokenB log))
    ∧ (excluded st.known_tokens (logTokenA log) = true →
        excluded st.known_tokens (logTokenB log) = true →
        analyze_pool_creation st log bn = none) := by
  have hpm : strToLower log.address ∉ st.processed_pools := by simpa using hp
  unfold analyze_pool_creation
  rw [if_pos h3, select_new_token_eq]
  refine ⟨fun hA => ?_, fun hA hB => ?_, fun hA hB => ?_⟩
  · simp [hA, hpm]
  · simp [hA, hB, hpm]
  · simp [hA, hB]

/-- Witness for C3 at the concrete fixture: token A of `logEx` is fresh,
so it is selected. -/
theorem C3_witness :
    (3 ≤ logEx.topics.length
      ∧ stEx.processed_pools.contains (strToLower logEx.address) = false)
    ∧ (excluded stEx.known_tokens (logTokenA logEx) = false
      ∧ (analyze_pool_creation stEx logEx 101).map RealNewPool.new_token_address
          = some (logTokenA logEx)) :=
  ⟨⟨by decide, by decide⟩,
    by decide,
    (C3_fixed_selection_rule stEx logEx 101 (by decide) (by decide)).1 (by decide)⟩

/-- C4: whatever the configured exclusion list, a classified event's
new-token address differs (case-insensitively) from every configured entry
and is never the wrapped-native WETH address, which is excluded even when
absent from the list. -/
theorem C4_excluded_never_returned (ks processed : List String) (lb : Nat)
    (log : Log) (bn : Nat) (e : RealNewPool)
    (h : analyze_pool_creation
      { known_tokens := ks.map strToLower, processed_pools := processed
      , last_block := lb } log bn = some e) :
    (∀ k ∈ ks, e.new_token_address ≠ strToLower k)
    ∧ e.new_token_address ≠ WETH_ADDRESS := by
  obtain ⟨hsel, -, -, -, -, -⟩ := analyze_some_elim h
  obtain ⟨hcon, hweth⟩ := select_new_token_some _ _ _ _ hsel
  constructor
  · intro k hk heq
    have hmemfalse : e.new_token_address ∉ ks.map strToLower := by simpa using hcon
    exact hmemfalse (List.mem_map.mpr ⟨k, hk, heq.symm⟩)
  · have hlow : strToLower WETH_ADDRESS = WETH_ADDRESS := by decide
    rw [hlow] at hweth
    exact hweth

/-- Witness for C4 at the concrete fixture. -/
theorem C4_witness :
    analyze_pool_creation
      { known_tokens := KNOWN_TOKENS.map strToLower, processed_pools := []
      , last_block := 100 } logEx 101 = some eEx
    ∧ ((∀ k ∈ KNOWN_TOKENS, eEx.new_token_address ≠ strToLower k)
      ∧ eEx.new_token_address ≠ WETH_ADDRESS) :=
  ⟨by decide, C4_excluded_never_returned KNOWN_TOKENS [] 100 logEx 101 eEx (by decide)⟩

/-- C7: a log with fewer than 3 topics classifies to nothing (the total
function cannot raise), and skipping it leaves the classification of the
remaining logs of the block unchanged. -/
theorem C7_short_topics_skipped (st : TraderState) (log : Log) (bn : Nat)
    (h : log.topics.length < 3) :
    analyze_pool_creation st log bn = none
    ∧ ∀ rest : List Log,
        analyze_logs st (log :: rest) bn = analyze_logs st rest bn := by
  have h1 : analyze_pool_creation st log bn = none := by
    unfold analyze_pool_creation
    rw [if_neg (by omega)]
  refine ⟨h1, fun rest => ?_⟩
  simp [analyze_logs, List.filterMap_cons, h1]

/-- A log carrying only the signature topic (1 topic). -/
def logShort : Log :=
  { address := "0x2222222222222222222222222222222222222222"
  , topics := [sigWord]
  , transaction_hash := none }

/-- Witness for C7: the 1-topic log is skipped and the rest of the block
(`logEx`) still classifies as before. -/
theorem C7_witness :
    logShort.topics.length < 3
    ∧ analyze_pool_creation stEx logShort 101 = none
    ∧ analyze_logs stEx (logShort :: [logEx]) 101 = analyze_logs stEx [logEx] 101 :=
  ⟨by decide,
    (C7_short_topics_skipped stEx logShort 101 (by decide)).1,
    (C7_short_topics_skipped stEx logShort 101 (by decide)).2 [logEx]⟩

/-- C8: classification is deterministic — equal exclusion sets, equal
processed sets, equal logs and equal block numbers give equal results,
whatever the rest of the trader state. -/
theorem C8_classification_deterministic (st₁ st₂ : TraderState)
    (log₁ log₂ : Log) (bn₁ bn₂ : Nat)
    (hk : st₁.known_tokens = st₂.known_tokens)
    (hp : st₁.processed_pools = st₂.processed_pools)
    (hl : log₁ = log₂) (hb : bn₁ = bn₂) :
    analyze_pool_creation st₁ log₁ bn₁ = analyze_pool_creation st₂ log₂ bn₂ := by
  subst hl
  subst hb
  unfold analyze_pool_creation
  rw [hk, hp]

/-- A state agreeing with `stEx` on both sets but with another cursor. -/
def stEx2 : TraderState := { stEx with last_block := 999 }

/-- Witness for C8: the two states differ in the cursor yet classify
`logEx` identically. -/
theorem C8_witness :
    (stEx.known_tokens = stEx2.known_tokens
      ∧ stEx.processed_pools = stEx2.processed_pools)
    ∧ analyze_pool_creation stEx logEx 101 = analyze_pool_creation stEx2 logEx 101 :=
  ⟨⟨rfl, rfl⟩,
    C8_classification_deterministic stEx stEx2 logEx logEx 101 101 rfl rfl rfl rfl⟩

/-- After executing the pools discovered in a batch of logs, re-classifying
the same logs yields nothing. -/
theorem analyze_logs_after_exec (st : TraderState) (logs : List Log) (bn : Nat)
    (v : String → Option (String × String)) (now : Nat) (gp : Option Nat) :
    analyze_logs ((analyze_logs st logs bn).foldl
      (fun s p => (execute_real_purchase s p v now gp).1) st) logs bn = [] := by
  set st1 := (analyze_logs st logs bn).foldl
    (fun s p => (execute_real_purchase s p v now gp).1) st with hst1
  unfold analyze_logs
  rw [List.filterMap_eq_nil_iff]
  intro l hl
  cases hal : analyze_pool_creation st l bn with
  | none =>
    refine analyze_mono st st1 l bn ?_ ?_ hal
    · rw [hst1]
      exact foldl_exec_known _ _ _ _ _
    · intro x hx
      rw [hst1]
      exact foldl_exec_contains_mono _ _ _ _ _ _ hx
  | some p =>
    have hmem : p ∈ analyze_logs st logs bn := List.mem_filterMap.mpr ⟨l, hl, hal⟩
    have hpair : p.pair_address = strToLower l.address := (analyze_some_elim hal).2.1
    refine analyze_rejects_processed st1 l bn ?_
    rw [← hpair, hst1]
    exact foldl_exec_contains_self _ _ _ _ _ _ hmem

/-- C1: once a pair address is in the processed set, classification rejects
every log emitted by that address; and a second identical scan-and-execute
pass over the same block produces zero further events to execute. -/
theorem C1_at_most_once_per_pair :
    (∀ (st : TraderState) (log : Log) (bn : Nat),
      st.processed_pools.contains (strToLower log.address) = true →
      analyze_pool_creation st log bn = none)
    ∧ ∀ (st : TraderState) (g : LogFilter → Option (List Log)) (bn : Nat)
        (v : String → Option (String × String)) (now : Nat) (gp : Option Nat),
      (scan_and_execute (scan_and_execute st g bn v now gp).1 g bn v now gp).2
        = [] := by
  refine ⟨analyze_rejects_processed, ?_⟩
  intro st g bn v now gp
  show find_real_new_pools (scan_and_execute st g bn v now gp).1 g bn = []
  have hsae : (scan_and_execute st g bn v now gp).1
      = (find_real_new_pools st g bn).foldl
          (fun s p => (execute_real_purchase s p v now gp).1) st := rfl
  rw [hsae]
  unfold find_real_new_pools
  cases hg : g (pair_created_filter bn) with
  | none => rfl
  | some logs => exact analyze_logs_after_exec st logs bn v now gp

/-- Witness for C1: with `logEx` processed the classification rejects it,
and a re-scan of the fixture block after executing it emits nothing. -/
theorem C1_witness :
    (stProc.processed_pools.contains (strToLower logEx.address) = true
      ∧ analyze_pool_creation stProc logEx 101 = none)
    ∧ (scan_and_execute (scan_and_execute stEx gOne 101 validateNone 0 none).1
        gOne 101 validateNone 0 none).2 = [] :=
  ⟨⟨by decide, C1_at_most_once_per_pair.1 stProc logEx 101 (by decide)⟩,
    C1_at_most_once_per_pair.2 stEx gOne 101 validateNone 0 none⟩

/-- C2 counterexample: the cursor sits at block 100, the chain height is
101, and the log fetch for block 101 fails with a transport error; the
claim says the cursor stays below 101, but the tick advances it to 101,
so block 101 is silently skipped. -/
theorem C2_counterexample :
    stEx.last_block = 100
    ∧ (run_tick stEx (some 101) getLogsFail validateNone 0 none).map
        TraderState.last_block = some 101 :=
  ⟨rfl, rfl⟩

/-- C2 amended: a failed log fetch yields an empty pool list for that
block, and the tick still advances the cursor to the current height
whenever the height exceeds it, whatever the log-fetch outcome — failed
blocks are therefore never re-scanned (only a failed height fetch, which
aborts the loop, leaves the cursor in place). -/
theorem C2_cursor_always_advances :
    (∀ (st : TraderState) (bn : Nat), find_real_new_pools st getLogsFail bn = [])
    ∧ ∀ (st : TraderState) (current : Nat) (g : LogFilter → Option (List Log))
        (v : String → Option (String × String)) (now : Nat) (gp : Option Nat),
      st.last_block < current →
      (run_tick st (some current) g v now gp).map TraderState.last_block
        = some current := by
  refine ⟨fun st bn => rfl, fun st current g v now gp h => ?_⟩
  simp [run_tick, h]

/-- Witness for C2 amended at the concrete fixture. -/
theorem C2_witness :
    find_real_new_pools stEx getLogsFail 101 = []
    ∧ (stEx.last_block < 101
      ∧ (run_tick stEx (some 101) getLogsFail validateNone 0 none).map
          TraderState.last_block = some 101) :=
  ⟨C2_cursor_always_advances.1 stEx 101,
    by decide,
    C2_cursor_always_advances.2 stEx 101 getLogsFail validateNone 0 none (by decide)⟩

/-- C5 counterexample: the log query filter for block 100 does not carry
the V3-style PoolCreated signature, contradicting the claim that the query
covers both signatures. -/
theorem C5_counterexample :
    (pair_created_filter 100).topic0.contains POOL_CREATED_V3_SIG = false
    ∧ (pair_created_filter 100).from_block = 100
    ∧ (pair_created_filter 100).to_block = 100 := by
  decide

/-- C5 amended: every scan queries exactly the single-block range
`[bn, bn]` and exactly the single V2-style PairCreated signature;
`POOL_CREATED_V3_SIG` is declared in the program but absent from the
filter. -/
theorem C5_single_block_v2_only (bn : Nat) :
    (pair_created_filter bn).from_block = bn
    ∧ (pair_created_filter bn).to_block = bn
    ∧ (pair_created_filter bn).topic0 = [PAIR_CREATED_SIG]
    ∧ (pair_created_filter bn).topic0.contains POOL_CREATED_V3_SIG = false := by
  refine ⟨rfl, rfl, rfl, ?_⟩
  show ([PAIR_CREATED_SIG] : List String).contains POOL_CREATED_V3_SIG = false
  decide

/-- C6: any swap that reaches the building stage carries the 2-hop
[wrapped-native, new token] path, a minimum-output floor of exactly 1 unit,
a deadline of now + 300 seconds, and a gas price of exactly 4 times the
fetched base gas price. -/
theorem C6_swap_parameters (st : TraderState) (pool : RealNewPool)
    (validate : String → Option (String × String)) (now base_gas : Nat)
    (swap : SwapTx)
    (h : (execute_real_purchase st pool validate now (some base_gas)).2 = some swap)
    (hg : base_gas * 4 < 2 ^ 256) :
    swap.path = [WETH_ADDRESS, pool.new_token_address]
    ∧ swap.min_out = 1
    ∧ swap.deadline = now + 300
    ∧ swap.gas_price = base_gas * 4 := by
  unfold execute_real_purchase at h
  cases hv : validate pool.new_token_address with
  | none =>
    rw [hv] at h
    cases h
  | some info =>
    rw [hv] at h
    cases h
    exact ⟨rfl, rfl, rfl, by simpa [build_swap] using Nat.mod_eq_of_lt hg⟩

/-- Witness for C6 with base gas 7 and clock 1000. -/
theorem C6_witness :
    ((execute_real_purchase stEx eEx validateOk 1000 (some 7)).2
        = some (build_swap eEx 1000 7)
      ∧ 7 * 4 < 2 ^ 256)
    ∧ ((build_swap eEx 1000 7).path = [WETH_ADDRESS, eEx.new_token_address]
      ∧ (build_swap eEx 1000 7).min_out = 1
      ∧ (build_swap eEx 1000 7).deadline = 1000 + 300
      ∧ (build_swap eEx 1000 7).gas_price = 7 * 4) :=
  ⟨⟨rfl, by decide⟩,
    C6_swap_parameters stEx eEx validateOk 1000 7 (build_swap eEx 1000 7) rfl
      (by decide)⟩

/-- C9: execution inserts the pair address into the processed set before
validation runs, so a pool whose validation fails produces no swap yet is
permanently rejected by any later classification of logs from that pair
address. -/
theorem C9_marked_processed_before_validation (st : TraderState)
    (pool : RealNewPool) (validate : String → Option (String × String))
    (now : Nat) (gp : Option Nat) :
    ((execute_real_purchase st pool validate now gp).1).processed_pools.contains
        pool.pair_address = true
    ∧ (validate pool.new_token_address = none →
        (execute_real_purchase st pool validate now gp).2 = none)
    ∧ ∀ (log : Log) (bn : Nat), strToLower log.address = pool.pair_address →
        analyze_pool_creation (execute_real_purchase st pool validate now gp).1
          log bn = none := by
  refine ⟨?_, ?_, ?_⟩
  · simp [execute_real_purchase]
  · intro hv
    cases gp <;> simp [execute_real_purchase, hv]
  · intro log bn heq
    refine analyze_rejects_processed _ log bn ?_
    rw [heq]
    simp [execute_real_purchase]

/-- Witness for C9: executing `eEx` under a failing validation still marks
its pair processed and makes the matching log `logEx` unclassifiable. -/
theorem C9_witness :
    (((execute_real_purchase stEx eEx validateNone 0 none).1).processed_pools.contains
        eEx.pair_address = true
      ∧ (validateNone eEx.new_token_address = none →
          (execute_real_purchase stEx eEx validateNone 0 none).2 = none))
    ∧ (strToLower logEx.address = eEx.pair_address
      ∧ analyze_pool_creation (execute_real_purchase stEx eEx validateNone 0 none).1
          logEx 102 = none) :=
  ⟨⟨(C9_marked_processed_before_validation stEx eEx validateNone 0 none).1,
    (C9_marked_processed_before_validation stEx eEx validateNone 0 none).2.1⟩,
   ⟨by decide,
    (C9_marked_processed_before_validation stEx eEx validateNone 0 none).2.2
      logEx 102 (by decide)⟩⟩

/-- C10: a log with at least 3 topics, a selectable (non-excluded) token, a
novel pair address and no transaction hash still classifies to an event
whose tx hash is the all-zero default hash. -/
theorem C10_missing_txhash_defaults (st : TraderState) (log : Log) (bn : Nat)
    (h3 : 3 ≤ log.topics.length)
    (hsel : excluded st.known_tokens (logTokenA log) = false
      ∨ excluded st.known_tokens (logTokenB log) = false)
    (hp : st.processed_pools.contains (strToLower log.address) = false)
    (htx : log.transaction_hash = none) :
    (analyze_pool_creation st log bn).map RealNewPool.tx_hash
      = some "0x0000000000000000000000000000000000000000000000000000000000000000" := by
  have hpm : strToLower log.address ∉ st.processed_pools := by simpa using hp
  unfold analyze_pool_creation
  rw [if_pos h3, select_new_token_eq, htx]
  rcases hsel with hA | hB
  · simp [hA, hpm]
    decide
  · by_cases hA : excluded st.known_tokens (logTokenA log) = false
    · simp [hA, hpm]
      decide
    · have hA2 : excluded st.known_tokens (logTokenA log) = true := by
        cases hx : excluded st.known_tokens (logTokenA log)
        · exact absurd hx hA
        · rfl
      simp [hA2, hB, hpm]
      decide

/-- Witness for C10: `logEx` carries no transaction hash yet classifies
with the zero hash. -/
theorem C10_witness :
    (3 ≤ logEx.topics.length
      ∧ excluded stEx.known_tokens (logTokenA logEx) = false
      ∧ stEx.processed_pools.contains (strToLower logEx.address) = false
      ∧ logEx.transaction_hash = none)
    ∧ (analyze_pool_creation stEx logEx 101).map RealNewPool.tx_hash
        = some "0x0000000000000000000000000000000000000000000000000000000000000000" :=
  ⟨⟨by decide, by decide, by decide, rfl⟩,
    C10_missing_txhash_defaults stEx logEx 101 (by decide) (Or.inl (by decide))
      (by decide) rfl⟩
